import Mathlib

set_option linter.unusedVariables false

/-
Verification development for the crackdown-mvp goal-tracking application.

The embedding below translates the notification-scheduling core
(app/services/notificationService.ts, the version containing
rescheduleGoalNotification), the goal CRUD service
(app/services/goalsService.ts, the version containing
generateCustomReminders), and the shared helpers of app/types/goals.ts
into Lean.

Modelling conventions:
- JavaScript numbers that may be negative are `Int`; counters that the
  code only ever sets to 0 or increments are `Nat`; Firestore Timestamps
  are opaque `Nat` instants.
- The external notification scheduler's pending-registration registry is
  a `List Registration`.  `scheduleNotificationAsync` appends, the cancel
  helpers enumerate the registry and cancel every entry whose `data` tag
  matches, which on the list model is a `filter`.  Registration ids are
  omitted: the code only ever cancels ids it found by matching the tag in
  the same enumeration, so cancellation is exactly a tag-based filter.
- The external reminder-text API call of generateCustomReminders is
  modelled by an explicit `ApiResponse` argument: `failure` covers a
  network error, timeout, non-ok HTTP status or malformed JSON (every path
  that reaches the catch block), and `success f` a 200 response whose
  parsed body has `f` as its `reminders` field (`none` when the field is
  absent or not an array, which also reaches the catch block).
- `Math.random()` draws are supplied by a `rand` argument giving the
  drawn index for each slot; the template is selected with `% length`
  exactly as `Math.floor(Math.random() * templates.length)` does.
- A thrown JavaScript error is `Except.error` with the message.
-/

inductive GoalType where
  | task
  | incremental
  deriving DecidableEq

structure GoalNotificationTimes where
  hour : Nat
  minute : Nat
  label : String
  deriving DecidableEq

/-
Goal mirrors the Goal document interface of app/types/goals.ts.
`daily_reminders` is typed 0|1|2|3 in TypeScript but flows through
unchecked casts, so it is embedded as `Int` and the 0..3 range appears as
an explicit hypothesis where a claim relies on it.
-/
structure Goal where
  id : String
  user_id : String
  goal_name : String
  goal_type : GoalType
  target_count : Option Int
  active : Bool
  icon : Option String
  created_date : Nat
  repeatDays : List Nat
  goal_streak : Nat
  total_completions : Nat
  day_count : Int
  completed : Bool
  last_day_completed : Option Nat
  daily_reminders : Int
  reminders : List String
  notification_times : List GoalNotificationTimes
  deriving DecidableEq

/-
GOAL_NOTIFICATION_SCHEDULES of app/types/goals.ts: a record keyed by the
frequencies 0..3.  Indexing a JS record with any other key yields
undefined, hence the Option result.
-/
def GOAL_NOTIFICATION_SCHEDULES (frequency : Int) : Option (List GoalNotificationTimes) :=
  if frequency = 0 then some []
  else if frequency = 1 then some [⟨12, 0, "Midday Check-in"⟩]
  else if frequency = 2 then
    some [⟨10, 0, "Morning Motivation"⟩, ⟨15, 0, "Afternoon Push"⟩]
  else if frequency = 3 then
    some [⟨9, 0, "Morning Start"⟩, ⟨12, 0, "Midday Check-in"⟩, ⟨16, 0, "Afternoon Finish"⟩]
  else none

/-
generateDefaultNotificationTimes of app/types/goals.ts:
`GOAL_NOTIFICATION_SCHEDULES[frequency] || []`.
-/
def generateDefaultNotificationTimes (frequency : Int) : List GoalNotificationTimes :=
  (GOAL_NOTIFICATION_SCHEDULES frequency).getD []

/-
getGoalNotificationTimes of app/types/goals.ts.  `goal.notification_times`
is an ever-present array in the embedding (arrays are truthy in JS, even
empty ones), so the `goal.notification_times && ...` guard reduces to the
length comparison.
-/
def typesGetGoalNotificationTimes (goal : Goal) : List GoalNotificationTimes :=
  if (goal.notification_times.length : Int) = goal.daily_reminders then
    goal.notification_times
  else
    (GOAL_NOTIFICATION_SCHEDULES goal.daily_reminders).getD []

/-
The private getGoalNotificationTimes of NotificationService.  Its local
defaultSchedules record is textually identical to
GOAL_NOTIFICATION_SCHEDULES, so the latter is reused; the key is clamped
to 0 by the `[0, 1, 2, 3].includes(...)` check, so the lookup never
misses and the `.getD []` default is unreachable.
-/
def notifGetGoalNotificationTimes (goal : Goal) : List GoalNotificationTimes :=
  if (goal.notification_times.length : Int) = goal.daily_reminders then
    goal.notification_times
  else
    let key : Int :=
      if ([0, 1, 2, 3] : List Int).contains goal.daily_reminders then goal.daily_reminders else 0
    (GOAL_NOTIFICATION_SCHEDULES key).getD []

/-
generateGoalNotificationMessage of app/types/goals.ts.  `rand` is the
Math.random draw for this call, reduced modulo the bucket size exactly as
`Math.floor(Math.random() * categoryTemplates.length)` is.
-/
def generateGoalNotificationMessage (goalName : String) (goalType : GoalType)
    (targetCount : Option Int) (timeLabel : String) (rand : Nat) : String :=
  let goalEmoji := if goalType = GoalType.task then "✅" else "📊"
  let morningTemplates : List String :=
    [goalEmoji ++ " Ready to tackle \"" ++ goalName ++ "\" today?",
     goalEmoji ++ " Morning! Time to work on \"" ++ goalName ++ "\"",
     goalEmoji ++ " Start strong with \"" ++ goalName ++ "\" today!"]
  let middayTemplates : List String :=
    [goalEmoji ++ " How\x27s \"" ++ goalName ++ "\" going today?",
     goalEmoji ++ " Midday check: \"" ++ goalName ++ "\" progress time!",
     goalEmoji ++ " Half the day done - how about \"" ++ goalName ++ "\"?"]
  let afternoonTemplates : List String :=
    [goalEmoji ++ " Final push for \"" ++ goalName ++ "\" today!",
     goalEmoji ++ " Don\x27t forget about \"" ++ goalName ++ "\" before evening!",
     goalEmoji ++ " Last chance to nail \"" ++ goalName ++ "\" today!"]
  let lower := timeLabel.toLower
  let categoryTemplates :=
    if lower.containsSubstr "morning" || lower.containsSubstr "start" then morningTemplates
    else if lower.containsSubstr "afternoon" || lower.containsSubstr "finish"
        || lower.containsSubstr "push" then afternoonTemplates
    else middayTemplates
  categoryTemplates.getD (rand % categoryTemplates.length) ""

/-
generateDefaultReminders of app/types/goals.ts.  `frequency` enters as an
unchecked cast (`notificationTimes.length as GoalNotificationFrequency`
at one call site), so it is an `Int`; the `for (let i = 0; i < frequency)`
loop runs `frequency.toNat` times.  Reading `times[i].label` when
`times[i]` is undefined throws a TypeError, hence the Except result.
-/
def generateDefaultReminders (goalName : String) (goalType : GoalType)
    (frequency : Int) (rand : Nat → Nat) : Except String (List String) :=
  if frequency = 0 then Except.ok []
  else
    let times := (GOAL_NOTIFICATION_SCHEDULES frequency).getD []
    if frequency = 1 then Except.ok ["Still messing around? Better hop to it!"]
    else
      (List.range frequency.toNat).mapM (fun i =>
        if i = 0 ∧ 1 < frequency then
          Except.ok "Still messing around? Better hop to it!"
        else
          match times[i]? with
          | some timeSlot =>
              Except.ok (generateGoalNotificationMessage goalName goalType none
                timeSlot.label (rand i))
          | none => Except.error "TypeError: cannot read properties of undefined")

/-
Outcome of the POST to the external reminder-generation service, as seen
by generateCustomReminders: `failure` is any path that lands in the catch
block before the reminders field is inspected (network error, timeout,
non-ok status, JSON parse failure); `success f` is an ok response whose
body has reminders field `f` (`none` when absent or not an array, which
throws and also lands in the catch block).
-/
inductive ApiResponse where
  | failure
  | success (remindersField : Option (List String))
  deriving DecidableEq

/-
generateCustomReminders of GoalsService (app/services/goalsService.ts).
On a well-formed success the reminders array is returned as-is; every
other outcome falls back to generateDefaultReminders with goal type
hard-coded to task and frequency taken from the slot count.  An error
thrown inside the catch block (by generateDefaultReminders) propagates.
-/
def generateCustomReminders (goalName : String)
    (notificationTimes : List GoalNotificationTimes) (resp : ApiResponse)
    (rand : Nat → Nat) : Except String (List String) :=
  match resp with
  | ApiResponse.success (some reminders) => Except.ok reminders
  | _ =>
      generateDefaultReminders goalName GoalType.task
        (notificationTimes.length : Int) rand

-- The notification registry -------------------------------------------------

/-
Tag payload carried in a notification's content.data.  Registrations
created by the goal scheduler carry the goal_reminder shape; anything
else (immediate_test, delayed_test, or registrations created outside
this system) is `other`.
-/
inductive NotifData where
  | goalReminder (goalId goalName timeSlot : String) (timeSlotIndex : Nat)
      (dayOfWeek : Nat) (dayName : String)
  | other (ty : String)
  deriving DecidableEq

inductive TriggerSpec where
  | weekly (hour minute weekday : Nat)
  | timeInterval (seconds : Nat)
  | immediate
  deriving DecidableEq

structure Registration where
  title : String
  body : String
  data : NotifData
  trigger : TriggerSpec
  deriving DecidableEq

def regIsGoalReminder (r : Registration) : Bool :=
  match r.data with
  | NotifData.goalReminder _ _ _ _ _ _ => true
  | NotifData.other _ => false

def regMatchesGoal (goalId : String) (r : Registration) : Bool :=
  match r.data with
  | NotifData.goalReminder gid _ _ _ _ _ => gid == goalId
  | NotifData.other _ => false

/-
The (weekday, slot index) key of a goal_reminder registration, used to
state that the scheduler creates one registration per pair.
-/
def regWeekdaySlot (r : Registration) : Nat × Nat :=
  match r.data with
  | NotifData.goalReminder _ _ _ slotIndex dayOfWeek _ => (dayOfWeek, slotIndex)
  | NotifData.other _ => (0, 0)

def getDayName (dayOfWeek : Nat) : String :=
  (["Sunday", "Monday", "Tuesday", "Wednesday", "Thursday", "Friday", "Saturday"]).getD
    dayOfWeek "undefined"

def convertToiOSWeekday (dayOfWeek : Nat) : Nat := dayOfWeek + 1

/-
JS `x || dflt` on an optional string: null, undefined and the empty
string are falsy.
-/
def jsStringOr (x : Option String) (dflt : String) : String :=
  match x with
  | some s => if s = "" then dflt else s
  | none => dflt

/-
getReminderForTimeSlot, the private helper of NotificationService: the
stored message for the slot when the index is in range, else the default.
-/
def getReminderForTimeSlot (goal : Goal) (timeSlotIndex : Nat) : String :=
  goal.reminders.getD timeSlotIndex ("Time to work on \"" ++ goal.goal_name ++ "\"!")

/-
cancelGoalNotifications of NotificationService: enumerate the registry
and cancel every registration tagged type goal_reminder, any goal.
-/
def cancelGoalNotifications (regs : List Registration) : List Registration :=
  regs.filter (fun r => !(regIsGoalReminder r))

/-
cancelGoalNotification of NotificationService: enumerate the registry and
cancel every registration tagged type goal_reminder with this goalId.
-/
def cancelGoalNotification (goalId : String) (regs : List Registration) : List Registration :=
  regs.filter (fun r => !(regMatchesGoal goalId r))

/-
The registration scheduleGoalNotifications builds for one goal, one
repeat day and one enumerated time slot `p = (timeIndex, timeSlot)`.
-/
def goalReminderReg (goal : Goal) (dayOfWeek : Nat) (p : Nat × GoalNotificationTimes) :
    Registration :=
  { title := jsStringOr goal.icon "🎯" ++ " " ++ goal.goal_name,
    body := getReminderForTimeSlot goal p.1,
    data := NotifData.goalReminder goal.id goal.goal_name p.2.label p.1 dayOfWeek
      (getDayName dayOfWeek),
    trigger := TriggerSpec.weekly p.2.hour p.2.minute (convertToiOSWeekday dayOfWeek) }

/-
The registrations the per-goal loop body of scheduleGoalNotifications
appends for one goal: nothing when the goal is inactive, has frequency 0,
no repeat days or no resolved times (the source binds the resolved times
to a local `times`, repeated inline here); otherwise one weekly
registration per repeat day per time slot, in loop order.
-/
def scheduleRegsForGoal (goal : Goal) : List Registration :=
  if goal.active = false then []
  else if goal.daily_reminders = 0 then []
  else if goal.repeatDays.length = 0 then []
  else if (notifGetGoalNotificationTimes goal).length = 0 then []
  else
    goal.repeatDays.flatMap (fun dayOfWeek =>
      (notifGetGoalNotificationTimes goal).enum.map (goalReminderReg goal dayOfWeek))

/-
scheduleGoalNotifications of NotificationService: first cancel every
existing goal_reminder registration (all goals), then append the
registrations of each input goal in order.
-/
def scheduleGoalNotifications (goals : List Goal) (regs : List Registration) : List Registration :=
  goals.foldl (fun acc goal => acc ++ scheduleRegsForGoal goal) (cancelGoalNotifications regs)

/-
rescheduleGoalNotification of NotificationService: cancel this goal's
registrations, then, when the goal is active with positive frequency and
at least one repeat day, run scheduleGoalNotifications on just this goal.
-/
def rescheduleGoalNotification (goal : Goal) (regs : List Registration) : List Registration :=
  let afterCancel := cancelGoalNotification goal.id regs
  if goal.active = true ∧ 0 < goal.daily_reminders ∧ 0 < goal.repeatDays.length then
    scheduleGoalNotifications [goal] afterCancel
  else
    afterCancel

-- GoalsService operations ---------------------------------------------------

/-
The goalData parameter of GoalsService.createGoal.  Optional parameters
are Option; `daily_reminders` is typed 0|1|2|3 upstream but embedded as
Int, matching the unchecked casts it flows through.
-/
structure CreateGoalInput where
  goal_name : String
  goal_type : GoalType
  target_count : Option Int
  icon : Option String
  repeatDays : List Nat
  daily_reminders : Option Int
  notification_times : Option (List GoalNotificationTimes)

/-
createGoal of GoalsService (the version that calls
generateCustomReminders).  `docId` is the id Firestore assigns, `now` the
Timestamp.now() instant.  The notification-scheduling side effect runs
against the registry model separately (scheduleNotificationsForGoal calls
rescheduleGoalNotification); the document built and stored is returned.
`goalData.daily_reminders || 1` maps undefined and 0 to 1;
`goalData.target_count || 1` maps null and 0 to 1; `goalData.icon || null`
maps undefined and the empty string to null.  The custom-times branch
keeps a supplied array unchanged even when empty, because arrays are
always truthy in JS.
-/
def createGoal (userId : String) (goalData : CreateGoalInput) (docId : String)
    (now : Nat) (resp : ApiResponse) (rand : Nat → Nat) : Except String Goal :=
  let frequency : Int :=
    match goalData.daily_reminders with
    | some n => if n = 0 then 1 else n
    | none => 1
  let notificationTimes :=
    match goalData.notification_times with
    | some ts => ts
    | none => generateDefaultNotificationTimes frequency
  match
    (if 0 < frequency ∧ 0 < notificationTimes.length then
      generateCustomReminders goalData.goal_name notificationTimes resp rand
    else
      Except.ok []) with
  | Except.error e => Except.error e
  | Except.ok reminders =>
  Except.ok
    { id := docId,
      user_id := userId,
      goal_name := goalData.goal_name,
      goal_type := goalData.goal_type,
      target_count :=
        if goalData.goal_type = GoalType.incremental then
          some (match goalData.target_count with
                | some t => if t = 0 then 1 else t
                | none => 1)
        else none,
      active := true,
      icon :=
        match goalData.icon with
        | some s => if s = "" then none else some s
        | none => none,
      created_date := now,
      repeatDays := goalData.repeatDays,
      goal_streak := 0,
      total_completions := 0,
      day_count := 0,
      completed := false,
      last_day_completed := none,
      daily_reminders := frequency,
      reminders := reminders,
      notification_times := notificationTimes }

/-
updateIncrementalCount of GoalsService, as the transformation it applies
to the stored goal document.  The updates object only touches day_count,
completed, last_day_completed, goal_streak and total_completions, none of
which trigger the reminder-regeneration or notification-reschedule paths
of updateGoal, so the net effect is a field merge.  The wrong-goal-type
guard throws; `goal.target_count && newCount >= goal.target_count` treats
null and 0 targets as falsy.
-/
def updateIncrementalCount (goal : Goal) (newCount : Int) (now : Nat) : Except String Goal :=
  if goal.goal_type ≠ GoalType.incremental then
    Except.error "Goal not found or not an incremental goal"
  else
    let withCount := { goal with day_count := max 0 newCount }
    match goal.target_count with
    | some t =>
        if t ≠ 0 ∧ t ≤ newCount then
          Except.ok { withCount with
            completed := true,
            last_day_completed := some now,
            goal_streak := goal.goal_streak + 1,
            total_completions := goal.total_completions + 1 }
        else
          Except.ok { withCount with completed := false }
    | none => Except.ok { withCount with completed := false }

/-
Spec-side definition, written from the words of the specification
(section 4.1, resolveSlots) for comparison with the slot resolution the
code implements: frequency outside 0..3 is the caller error
InvalidFrequency, frequency 0 is the empty list, matching-length custom
times win, otherwise the fixed default table.
-/
def resolveSlotsSpec (frequency : Int)
    (customTimes : Option (List GoalNotificationTimes)) :
    Except String (List GoalNotificationTimes) :=
  if frequency < 0 ∨ 3 < frequency then Except.error "InvalidFrequency"
  else if frequency = 0 then Except.ok []
  else
    let defaults : List GoalNotificationTimes :=
      if frequency = 1 then [⟨12, 0, "Midday Check-in"⟩]
      else if frequency = 2 then [⟨10, 0, "Morning Motivation"⟩, ⟨15, 0, "Afternoon Push"⟩]
      else [⟨9, 0, "Morning Start"⟩, ⟨12, 0, "Midday Check-in"⟩, ⟨16, 0, "Afternoon Finish"⟩]
    match customTimes with
    | some ts => if (ts.length : Int) = frequency then Except.ok ts else Except.ok defaults
    | none => Except.ok defaults

-- Helper lemmas --------------------------------------------------------------

theorem regMatchesGoal_isGoalReminder (goalId : String) (r : Registration)
    (h : regMatchesGoal goalId r = true) : regIsGoalReminder r = true := by
  cases hd : r.data <;> simp [regMatchesGoal, regIsGoalReminder, hd] at h ⊢

theorem scheduleRegs_matches (g : Goal) :
    ∀ r ∈ scheduleRegsForGoal g, regMatchesGoal g.id r = true := by
  intro r hr
  unfold scheduleRegsForGoal at hr
  split at hr
  · simp at hr
  split at hr
  · simp at hr
  split at hr
  · simp at hr
  split at hr
  · simp at hr
  simp only [List.mem_flatMap, List.mem_map] at hr
  obtain ⟨d, hd, p, hp, rfl⟩ := hr
  simp [goalReminderReg, regMatchesGoal]

theorem filter_match_cancelGoal_self (goalId : String) (regs : List Registration) :
    (cancelGoalNotification goalId regs).filter (regMatchesGoal goalId) = [] := by
  unfold cancelGoalNotification
  rw [List.filter_filter]
  refine List.filter_eq_nil_iff.mpr ?_
  intro r hr
  simp

theorem filter_match_cancelAll (goalId : String) (regs : List Registration) :
    (cancelGoalNotifications regs).filter (regMatchesGoal goalId) = [] := by
  unfold cancelGoalNotifications
  rw [List.filter_filter]
  refine List.filter_eq_nil_iff.mpr ?_
  intro r hr
  cases hd : r.data <;> simp [regMatchesGoal, regIsGoalReminder, hd]

theorem cancelAll_scheduleRegs (g : Goal) :
    cancelGoalNotifications (scheduleRegsForGoal g) = [] := by
  unfold cancelGoalNotifications
  refine List.filter_eq_nil_iff.mpr ?_
  intro r hr
  have h := regMatchesGoal_isGoalReminder g.id r (scheduleRegs_matches g r hr)
  simp [h]

theorem cancelAll_idem (regs : List Registration) :
    cancelGoalNotifications (cancelGoalNotifications regs) = cancelGoalNotifications regs := by
  unfold cancelGoalNotifications
  rw [List.filter_filter]
  exact List.filter_congr (by intro r hr; simp)

theorem cancelAll_append (a b : List Registration) :
    cancelGoalNotifications (a ++ b) = cancelGoalNotifications a ++ cancelGoalNotifications b := by
  unfold cancelGoalNotifications
  exact List.filter_append _ _

theorem cancelAll_cancelGoal (goalId : String) (regs : List Registration) :
    cancelGoalNotifications (cancelGoalNotification goalId regs) = cancelGoalNotifications regs := by
  unfold cancelGoalNotifications cancelGoalNotification
  rw [List.filter_filter]
  refine List.filter_congr ?_
  intro r hr
  cases hd : r.data <;> simp [regMatchesGoal, regIsGoalReminder, hd]

theorem scheduleGoalNotifications_single (g : Goal) (regs : List Registration) :
    scheduleGoalNotifications [g] regs = cancelGoalNotifications regs ++ scheduleRegsForGoal g :=
  rfl

theorem reschedule_pos (g : Goal) (regs : List Registration)
    (h : g.active = true ∧ 0 < g.daily_reminders ∧ 0 < g.repeatDays.length) :
    rescheduleGoalNotification g regs
      = cancelGoalNotifications regs ++ scheduleRegsForGoal g := by
  unfold rescheduleGoalNotification
  rw [if_pos h, scheduleGoalNotifications_single, cancelAll_cancelGoal]

theorem reschedule_neg (g : Goal) (regs : List Registration)
    (h : ¬(g.active = true ∧ 0 < g.daily_reminders ∧ 0 < g.repeatDays.length)) :
    rescheduleGoalNotification g regs = cancelGoalNotification g.id regs := by
  unfold rescheduleGoalNotification
  rw [if_neg h]

theorem reschedule_idem (g : Goal) (regs : List Registration) :
    rescheduleGoalNotification g (rescheduleGoalNotification g regs)
      = rescheduleGoalNotification g regs := by
  by_cases h : g.active = true ∧ 0 < g.daily_reminders ∧ 0 < g.repeatDays.length
  · rw [reschedule_pos g regs h, reschedule_pos g _ h, cancelAll_append, cancelAll_idem,
      cancelAll_scheduleRegs, List.append_nil]
  · rw [reschedule_neg g regs h, reschedule_neg g _ h]
    unfold cancelGoalNotification
    rw [List.filter_filter]
    exact List.filter_congr (by intro r hr; simp)

theorem notifTimes_length (g : Goal)
    (hdr : g.daily_reminders = 1 ∨ g.daily_reminders = 2 ∨ g.daily_reminders = 3) :
    (notifGetGoalNotificationTimes g).length = g.daily_reminders.toNat := by
  unfold notifGetGoalNotificationTimes
  split
  · next h => omega
  · rcases hdr with h | h | h <;> rw [h] <;> rfl

theorem sum_map_const {α : Type} (l : List α) (c : Nat) :
    (l.map (fun _ => c)).sum = l.length * c := by
  induction l with
  | nil => simp
  | cons a t ih => simp [ih, Nat.succ_mul, Nat.add_comm]

theorem scheduleRegs_expand (g : Goal) (hact : g.active = true)
    (hdr0 : g.daily_reminders ≠ 0) (hrep : g.repeatDays.length ≠ 0)
    (htlen : (notifGetGoalNotificationTimes g).length ≠ 0) :
    scheduleRegsForGoal g
      = g.repeatDays.flatMap (fun d =>
          (notifGetGoalNotificationTimes g).enum.map (goalReminderReg g d)) := by
  unfold scheduleRegsForGoal
  rw [if_neg (by simp [hact]), if_neg hdr0, if_neg hrep, if_neg htlen]

-- Concrete fixtures used by the closed theorems below ------------------------

def cRand : Nat → Nat := fun _ => 0

def cGoalA : Goal :=
  { id := "goal-A", user_id := "user-1", goal_name := "Run", goal_type := GoalType.task,
    target_count := none, active := true, icon := none, created_date := 0,
    repeatDays := [1, 3, 5], goal_streak := 0, total_completions := 0, day_count := 0,
    completed := false, last_day_completed := none, daily_reminders := 2,
    reminders := ["msg-0", "msg-1"], notification_times := [] }

def cGoalB : Goal :=
  { cGoalA with
    id := "goal-B",
    goal_name := "Stretch",
    repeatDays := [2],
    daily_reminders := 1,
    reminders := ["msg-B"] }

def cGoalC : Goal :=
  { cGoalB with
    id := "goal-C",
    goal_name := "Stretch" }

def cTestReg : Registration :=
  { title := "Delayed Test 🎯",
    body := "This notification was scheduled 5 seconds ago!",
    data := NotifData.other "delayed_test",
    trigger := TriggerSpec.timeInterval 5 }

-- Claim theorems -------------------------------------------------------------

/--
C1: for every goal g and every starting registration set, calling
rescheduleGoalNotification twice in sequence with g unchanged leaves
exactly the same final set of registrations tagged with g's goal id as
calling it once; no duplicate (weekday, slotIndex) registrations for g
accumulate.
-/
theorem reschedule_goal_idempotent (g : Goal) (regs : List Registration) :
    (rescheduleGoalNotification g (rescheduleGoalNotification g regs)).filter
        (regMatchesGoal g.id)
      = (rescheduleGoalNotification g regs).filter (regMatchesGoal g.id) := by
  rw [reschedule_idem]

/--
C2: evaluation of the code at a failing input for the frame claim. The
registry initially holds goal-B's single registration; rescheduling the
unrelated, schedulable goal-A removes it, because
scheduleGoalNotifications opens with cancelGoalNotifications, a wipe of
every goal_reminder registration regardless of goal id. The claim
requires goal-B's registration to survive unchanged.
-/
theorem reschedule_cancels_other_goals :
    ((scheduleRegsForGoal cGoalB).filter (regMatchesGoal "goal-B")).length = 1
    ∧ ((rescheduleGoalNotification cGoalA (scheduleRegsForGoal cGoalB)).filter
        (regMatchesGoal "goal-B")).length = 0 := by
  constructor
  · decide
  · decide

/--
C4: cancelGoalNotification cancels only registrations whose tag is
goal_reminder with the given goal id. Every registration with a
different goal id or without the goal_reminder tag survives (even with
identical weekday and time slots, since the check reads only the tag),
everything cancelled did match, and the call is a no-op when zero
registrations match.
-/
theorem cancel_for_goal_isolation (goalId : String) (regs : List Registration) :
    (∀ r ∈ regs, regMatchesGoal goalId r = false → r ∈ cancelGoalNotification goalId regs)
    ∧ (∀ r ∈ cancelGoalNotification goalId regs, r ∈ regs ∧ regMatchesGoal goalId r = false)
    ∧ ((∀ r ∈ regs, regMatchesGoal goalId r = false)
        → cancelGoalNotification goalId regs = regs) := by
  unfold cancelGoalNotification
  refine ⟨?_, ?_, ?_⟩
  · intro r hr hm
    simp [List.mem_filter, hr, hm]
  · intro r hr
    simp only [List.mem_filter, Bool.not_eq_eq_eq_not, Bool.not_true] at hr
    exact ⟨hr.1, hr.2⟩
  · intro h
    refine List.filter_eq_self.mpr ?_
    intro r hr
    simp [h r hr]

/--
C4 witness: cancelling goal-A leaves a registry holding goal-B's
registration and an untagged delayed-test registration untouched (zero
matches, no-op), and cancelling goal-B keeps goal-C's registration even
though goal-C shares the identical weekly 12:00 Tuesday slot.
-/
theorem cancel_for_goal_isolation_witness :
    cancelGoalNotification "goal-A" (scheduleRegsForGoal cGoalB ++ [cTestReg])
        = scheduleRegsForGoal cGoalB ++ [cTestReg]
    ∧ goalReminderReg cGoalC 2 (0, ⟨12, 0, "Midday Check-in"⟩)
        ∈ cancelGoalNotification "goal-B"
            (scheduleRegsForGoal cGoalB ++ scheduleRegsForGoal cGoalC) := by
  constructor
  · exact (cancel_for_goal_isolation "goal-A" (scheduleRegsForGoal cGoalB ++ [cTestReg])).2.2
      (by decide)
  · exact (cancel_for_goal_isolation "goal-B"
        (scheduleRegsForGoal cGoalB ++ scheduleRegsForGoal cGoalC)).1
      (goalReminderReg cGoalC 2 (0, ⟨12, 0, "Midday Check-in"⟩)) (by decide) (by decide)

/--
C5: for a goal that is inactive, or has reminder frequency 0, or has no
repeat days, rescheduleGoalNotification leaves zero registrations tagged
with that goal's id: the schedule step is skipped by the guard while the
initial cancelGoalNotification still removes all prior registrations for
the id.
-/
theorem reschedule_unschedulable_zero (g : Goal) (regs : List Registration)
    (h : g.active = false ∨ g.daily_reminders = 0 ∨ g.repeatDays = []) :
    (rescheduleGoalNotification g regs).filter (regMatchesGoal g.id) = [] := by
  have hneg : ¬(g.active = true ∧ 0 < g.daily_reminders ∧ 0 < g.repeatDays.length) := by
    rcases h with h | h | h <;> simp [h]
  rw [reschedule_neg g regs hneg]
  exact filter_match_cancelGoal_self g.id regs

/--
C5 witness: deactivating goal-B and rescheduling, starting from a
registry that still holds goal-B's registration, ends with zero
registrations tagged goal-B.
-/
theorem reschedule_unschedulable_zero_witness :
    ((scheduleRegsForGoal cGoalB).filter (regMatchesGoal "goal-B")).length = 1
    ∧ (rescheduleGoalNotification { cGoalB with active := false }
        (scheduleRegsForGoal cGoalB)).filter (regMatchesGoal "goal-B") = [] := by
  constructor
  · decide
  · exact reschedule_unschedulable_zero { cGoalB with active := false }
      (scheduleRegsForGoal cGoalB) (Or.inl rfl)

/--
C3: for every active goal with non-empty repeat days and frequency
f ∈ {1,2,3} (the range of the GoalNotificationFrequency type),
rescheduling produces exactly repeatDays.length × f registrations tagged
with the goal's id, keyed one per (weekday, slotIndex) pair in loop
order.
-/
theorem schedule_matrix_registrations (g : Goal) (regs : List Registration)
    (hact : g.active = true) (hrep : g.repeatDays ≠ [])
    (hdr : g.daily_reminders = 1 ∨ g.daily_reminders = 2 ∨ g.daily_reminders = 3) :
    ((rescheduleGoalNotification g regs).filter (regMatchesGoal g.id)).map regWeekdaySlot
        = g.repeatDays.flatMap (fun d =>
            (List.range g.daily_reminders.toNat).map (fun i => (d, i)))
    ∧ ((rescheduleGoalNotification g regs).filter (regMatchesGoal g.id)).length
        = g.repeatDays.length * g.daily_reminders.toNat := by
  have hdrpos : 0 < g.daily_reminders := by rcases hdr with h | h | h <;> rw [h] <;> norm_num
  have hlenpos : 0 < g.repeatDays.length := List.length_pos.mpr hrep
  have htlen : (notifGetGoalNotificationTimes g).length = g.daily_reminders.toNat :=
    notifTimes_length g hdr
  have htpos : (notifGetGoalNotificationTimes g).length ≠ 0 := by omega
  rw [reschedule_pos g regs ⟨hact, hdrpos, hlenpos⟩, List.filter_append, filter_match_cancelAll,
    List.nil_append, List.filter_eq_self.mpr (scheduleRegs_matches g),
    scheduleRegs_expand g hact (by omega) (by omega) htpos]
  constructor
  · rw [List.map_flatMap]
    have hinner : ∀ d : Nat,
        ((notifGetGoalNotificationTimes g).enum.map (goalReminderReg g d)).map regWeekdaySlot
          = (List.range g.daily_reminders.toNat).map (fun i => (d, i)) := by
      intro d
      rw [List.map_map]
      have hcomp : regWeekdaySlot ∘ goalReminderReg g d
          = (fun i => (d, i)) ∘ Prod.fst := by
        funext p
        simp [goalReminderReg, regWeekdaySlot]
      rw [hcomp, ← List.map_map, List.enum_map_fst, htlen]
    simp only [hinner]
  · rw [List.length_flatMap]
    have hmap : g.repeatDays.map
          (fun d => ((notifGetGoalNotificationTimes g).enum.map (goalReminderReg g d)).length)
        = g.repeatDays.map (fun _ => g.daily_reminders.toNat) := by
      refine List.map_congr_left ?_
      intro d hd
      rw [List.length_map, List.enum_length, htlen]
    simp only [Function.comp_def]
    rw [hmap, sum_map_const]

/--
C3 witness: the concrete scenario repeatDays [1,3,5], frequency 2, empty
custom times, starting registry empty: exactly 6 registrations, one per
(weekday, slot) pair, firing weekly at 10:00 and 15:00 on iOS weekdays
2, 4 and 6 (the converted 0-based days 1, 3 and 5).
-/
theorem schedule_matrix_registrations_witness :
    cGoalA.active = true ∧ cGoalA.repeatDays ≠ [] ∧ cGoalA.daily_reminders = 2
    ∧ ((rescheduleGoalNotification cGoalA []).filter (regMatchesGoal cGoalA.id)).map
        regWeekdaySlot = [(1, 0), (1, 1), (3, 0), (3, 1), (5, 0), (5, 1)]
    ∧ ((rescheduleGoalNotification cGoalA []).filter (regMatchesGoal cGoalA.id)).length = 6
    ∧ ((rescheduleGoalNotification cGoalA []).filter (regMatchesGoal cGoalA.id)).map
        Registration.trigger
      = [TriggerSpec.weekly 10 0 2, TriggerSpec.weekly 15 0 2, TriggerSpec.weekly 10 0 4,
         TriggerSpec.weekly 15 0 4, TriggerSpec.weekly 10 0 6, TriggerSpec.weekly 15 0 6] := by
  have h := schedule_matrix_registrations cGoalA [] rfl (by decide) (Or.inr (Or.inl rfl))
  exact ⟨rfl, by decide, rfl, h.1.trans (by decide), h.2.trans (by decide), by decide⟩

theorem generateDefaultReminders_length (goalName : String) (goalType : GoalType)
    (rand : Nat → Nat) (n : Nat) (h : n ≤ 3) :
    (generateDefaultReminders goalName goalType (n : Int) rand).map List.length
      = Except.ok n := by
  interval_cases n <;> rfl

/--
C6 (amended): generateCustomReminders never throws and returns one
message per slot on the fallback path (external failure, or a success
payload without a well-formed reminders array) for slot counts in the
0..3 range of the frequency type; a success payload whose reminders
field is an array is returned as-is, so in that case the output length
is the payload's length rather than the slot count.
-/
theorem generate_messages_length_amended (goalName : String)
    (notificationTimes : List GoalNotificationTimes) (rand : Nat → Nat) :
    (∀ resp : ApiResponse,
      resp = ApiResponse.failure ∨ resp = ApiResponse.success none →
      notificationTimes.length ≤ 3 →
      (generateCustomReminders goalName notificationTimes resp rand).map List.length
        = Except.ok notificationTimes.length)
    ∧ ∀ payload : List String,
        generateCustomReminders goalName notificationTimes
          (ApiResponse.success (some payload)) rand = Except.ok payload := by
  constructor
  · intro resp hresp hlen
    rcases hresp with rfl | rfl
    · exact generateDefaultReminders_length goalName GoalType.task rand
        notificationTimes.length hlen
    · exact generateDefaultReminders_length goalName GoalType.task rand
        notificationTimes.length hlen
  · intro payload
    rfl

/--
C6 witness: with one slot, a failed external call yields exactly one
fallback message, and a well-formed success payload is returned
unchanged.
-/
theorem generate_messages_length_amended_witness :
    (generateCustomReminders "Run" [⟨12, 0, "Midday Check-in"⟩] ApiResponse.failure cRand).map
        List.length = Except.ok 1
    ∧ generateCustomReminders "Run" [⟨12, 0, "Midday Check-in"⟩]
        (ApiResponse.success (some ["custom"])) cRand = Except.ok ["custom"] := by
  exact ⟨(generate_messages_length_amended "Run" [⟨12, 0, "Midday Check-in"⟩] cRand).1
      ApiResponse.failure (Or.inl rfl) (by decide),
    (generate_messages_length_amended "Run" [⟨12, 0, "Midday Check-in"⟩] cRand).2 ["custom"]⟩

/--
C6 counterexample: called with one slot, a successful external call
whose reminders array has two entries is returned as-is, so the output
length is 2, not the slot count 1; and with four slots a failed external
call makes the fallback throw (reading the label of an undefined slot),
so the function is not exception-free either.
-/
theorem generate_messages_length_counterexample :
    ([(⟨12, 0, "Midday Check-in"⟩ : GoalNotificationTimes)].length = 1)
    ∧ (generateCustomReminders "Run" [⟨12, 0, "Midday Check-in"⟩]
        (ApiResponse.success (some ["a", "b"])) cRand).map List.length = Except.ok 2
    ∧ (2 : Nat) ≠ 1
    ∧ (generateCustomReminders "Run"
        [⟨8, 0, "a"⟩, ⟨9, 0, "b"⟩, ⟨10, 0, "c"⟩, ⟨11, 0, "d"⟩]
        ApiResponse.failure cRand).isOk = false := by
  exact ⟨rfl, rfl, by decide, rfl⟩

def cGoal4 : Goal := { cGoalA with daily_reminders := 4, notification_times := [] }

def cGoalNeg : Goal := { cGoalA with daily_reminders := -1, notification_times := [] }

/--
C7 (amended): neither slot-resolution function raises; both are total
and return a list. A frequency outside 0..3 without matching-length
custom times (any custom array, empty or not, whose length differs from
the frequency) falls back to the empty list (the frequency-0 schedule)
instead of an InvalidFrequency error, and a frequency in {0,1,2,3} with
no custom times yields the fixed default table of length equal to the
frequency.
-/
theorem resolve_slots_amended (g : Goal) :
    ((g.daily_reminders < 0 ∨ 3 < g.daily_reminders) →
      (g.notification_times.length : Int) ≠ g.daily_reminders →
      notifGetGoalNotificationTimes g = [] ∧ typesGetGoalNotificationTimes g = [])
    ∧ (g.notification_times = [] →
        (g.daily_reminders = 0 ∨ g.daily_reminders = 1 ∨ g.daily_reminders = 2
          ∨ g.daily_reminders = 3) →
        notifGetGoalNotificationTimes g
            = generateDefaultNotificationTimes g.daily_reminders
        ∧ typesGetGoalNotificationTimes g
            = generateDefaultNotificationTimes g.daily_reminders
        ∧ (notifGetGoalNotificationTimes g).length = g.daily_reminders.toNat) := by
  constructor
  · intro hout hne
    have hkey : (([0, 1, 2, 3] : List Int).contains g.daily_reminders) = false := by
      simp only [List.contains_eq_any_beq, List.any_cons, List.any_nil, Bool.or_false,
        Bool.or_eq_false_iff, beq_eq_false_iff_ne]
      refine ⟨?_, ?_, ?_, ?_⟩ <;> omega
    constructor
    · unfold notifGetGoalNotificationTimes
      rw [if_neg hne]
      simp only [hkey, Bool.false_eq_true, if_false]
      rfl
    · unfold typesGetGoalNotificationTimes
      rw [if_neg hne]
      unfold GOAL_NOTIFICATION_SCHEDULES
      rw [if_neg (by omega), if_neg (by omega), if_neg (by omega), if_neg (by omega)]
      rfl
  · intro hnil hin
    rcases hin with h | h | h | h <;>
      simp [notifGetGoalNotificationTimes, typesGetGoalNotificationTimes,
        generateDefaultNotificationTimes, GOAL_NOTIFICATION_SCHEDULES, hnil, h]

def cGoal4Custom : Goal :=
  { cGoalA with daily_reminders := 4, notification_times := [⟨8, 0, "Early"⟩] }

/--
C7 witness: at frequency 4 both resolution functions return the empty
list, whether the non-matching custom times array is empty (cGoal4) or
holds one slot (cGoal4Custom); and at frequency 2 with no custom times
both return the default two-slot table (10:00, 15:00), of length 2.
-/
theorem resolve_slots_amended_witness :
    (notifGetGoalNotificationTimes cGoal4 = [] ∧ typesGetGoalNotificationTimes cGoal4 = [])
    ∧ (notifGetGoalNotificationTimes cGoal4Custom = []
        ∧ typesGetGoalNotificationTimes cGoal4Custom = [])
    ∧ notifGetGoalNotificationTimes cGoalA
        = [⟨10, 0, "Morning Motivation"⟩, ⟨15, 0, "Afternoon Push"⟩]
    ∧ (notifGetGoalNotificationTimes cGoalA).length = 2 := by
  have h4 := (resolve_slots_amended cGoal4).1 (by norm_num [cGoal4, cGoalA]) (by decide)
  have h4c := (resolve_slots_amended cGoal4Custom).1 (by norm_num [cGoal4Custom, cGoalA])
    (by decide)
  have h2 := (resolve_slots_amended cGoalA).2 rfl (by norm_num [cGoalA])
  exact ⟨h4, h4c, h2.1.trans (by decide), h2.2.2.trans (by decide)⟩

/--
C7 counterexample: for frequencies 4 and -1 the code's two slot
resolution functions return the empty list (falling back to the
frequency-0 schedule); no error is raised, the functions are total. The
spec-side resolveSlotsSpec, written from the specification's words,
returns the InvalidFrequency error at the same inputs.
-/
theorem resolve_slots_counterexample :
    notifGetGoalNotificationTimes cGoal4 = []
    ∧ typesGetGoalNotificationTimes cGoal4 = []
    ∧ notifGetGoalNotificationTimes cGoalNeg = []
    ∧ typesGetGoalNotificationTimes cGoalNeg = []
    ∧ resolveSlotsSpec 4 none = Except.error "InvalidFrequency"
    ∧ resolveSlotsSpec (-1) none = Except.error "InvalidFrequency" := by
  exact ⟨by decide, by decide, by decide, by decide, rfl, rfl⟩

def cGoal7 : Goal :=
  { cGoalA with
    goal_type := GoalType.incremental,
    target_count := some 8,
    day_count := 7,
    completed := false,
    goal_streak := 5,
    total_completions := 10 }

def cGoal8 : Goal :=
  { cGoal7 with
    day_count := 8,
    completed := true }

/--
C8: evaluation of the code at a failing input for the
increment-exactly-once claim. cGoal7 is the incremental goal
{dayCount 7, target 8, streak 5, total 10}; incrementing to 8 correctly
increments streak/total once (first crossing). cGoal8 is its stored
state after that crossing (dayCount 8, completed true); incrementing to
9 increments streak and total AGAIN (6, 11), because
updateIncrementalCount has no already-completed guard, while the claim
requires them to stay at 6 and 11 only via the first crossing, i.e. the
second call must leave streak/total unchanged.
-/
theorem update_incremental_repeat_increments :
    (updateIncrementalCount cGoal7 8 100).map
        (fun g => (g.goal_streak, g.total_completions, g.day_count, g.completed))
      = Except.ok (6, 11, 8, true)
    ∧ (updateIncrementalCount cGoal8 9 100).map
        (fun g => (g.goal_streak, g.total_completions, g.day_count, g.completed))
      = Except.ok (6, 11, 9, true) := by
  exact ⟨rfl, rfl⟩

def cInputMismatch : CreateGoalInput :=
  { goal_name := "Read",
    goal_type := GoalType.task,
    target_count := none,
    icon := none,
    repeatDays := [1],
    daily_reminders := some 2,
    notification_times := some [⟨8, 30, "Early"⟩] }

/--
C9: evaluation of the code at a failing input for the length-invariant
claim. createGoal accepts a custom notification_times array whose length
(1) differs from daily_reminders (2) without validation; with the
reminder API unavailable the fallback generates one message per supplied
slot, so the stored goal has daily_reminders 2 but notification_times
and reminders of length 1, violating the invariant documented on the
Goal interface.
-/
theorem create_goal_invariant_violation :
    (createGoal "user-1" cInputMismatch "doc-1" 0 ApiResponse.failure cRand).map
        (fun g => (g.daily_reminders, g.notification_times.length, g.reminders.length))
      = Except.ok (2, 1, 1) := by
  rfl

/--
C10: whenever createGoal is called with daily_reminders explicitly 0 and
succeeds, the stored goal has daily_reminders 1, because
`goalData.daily_reminders || 1` coerces the falsy 0 to the default 1; a
goal with zero reminders cannot be created through createGoal.
-/
theorem create_goal_zero_coerced_to_one (userId : String) (goalData : CreateGoalInput)
    (docId : String) (now : Nat) (resp : ApiResponse) (rand : Nat → Nat) (g : Goal)
    (h0 : goalData.daily_reminders = some 0)
    (hok : createGoal userId goalData docId now resp rand = Except.ok g) :
    g.daily_reminders = 1 := by
  simp only [createGoal, h0] at hok
  split at hok
  · exact absurd hok (by simp)
  · simp only [Except.ok.injEq] at hok
    subst hok
    rfl

def cInput0 : CreateGoalInput :=
  { goal_name := "Read",
    goal_type := GoalType.task,
    target_count := none,
    icon := none,
    repeatDays := [1],
    daily_reminders := some 0,
    notification_times := none }

def cGoal0Result : Goal :=
  { id := "doc-1", user_id := "user-1", goal_name := "Read", goal_type := GoalType.task,
    target_count := none, active := true, icon := none, created_date := 0,
    repeatDays := [1], goal_streak := 0, total_completions := 0, day_count := 0,
    completed := false, last_day_completed := none, daily_reminders := 1,
    reminders := ["Still messing around? Better hop to it!"],
    notification_times := [⟨12, 0, "Midday Check-in"⟩] }

/--
C10 witness: a concrete createGoal call with daily_reminders explicitly
0 succeeds and stores a goal whose daily_reminders is 1 (with the
one-slot default schedule and one fallback message).
-/
theorem create_goal_zero_coerced_to_one_witness :
    cInput0.daily_reminders = some 0
    ∧ createGoal "user-1" cInput0 "doc-1" 0 ApiResponse.failure cRand
        = Except.ok cGoal0Result
    ∧ cGoal0Result.daily_reminders = 1 := by
  refine ⟨rfl, rfl, ?_⟩
  exact create_goal_zero_coerced_to_one "user-1" cInput0 "doc-1" 0 ApiResponse.failure cRand
    cGoal0Result rfl rfl
